import Mathlib

/-!
Shallow embedding of the Turnstile binding component (src/lib.tsx) for a
component framework: the process-wide script-loader state machine, the
per-instance imperative handle (reset / remove / render / execute), the
cancellable automatic render effect, and the polling-based
getResponsePromise routine with its timeout timer.
-/

namespace HonoTurnstile

/-- JavaScript value held by the widgetId ref (`string | undefined | null`);
truthiness distinguishes null, undefined and the empty string from real ids. -/
inductive JSVal where
  | null : JSVal
  | undef : JSVal
  | str (s : String) : JSVal
deriving DecidableEq, Repr

/-- JS truthiness of a widgetId value: null, undefined and the empty string
are falsy, every other string is truthy. -/
def JSVal.truthy : JSVal → Bool
  | JSVal.null => false
  | JSVal.undef => false
  | JSVal.str s => s ≠ ""

/-- Outcome of a call into the external widget library: a returned value or a
thrown exception (with its message). -/
inductive ExtCall (α : Type) where
  | ok (val : α) : ExtCall α
  | throws (msg : String) : ExtCall α
deriving DecidableEq, Repr

/-! ## Global loader state (src/lib.tsx lines 22-44) -/

/-- The module-level `turnstileState` variable: `'unloaded' | 'loading' | 'ready'`. -/
inductive TurnstileStatus where
  | unloaded : TurnstileStatus
  | loading : TurnstileStatus
  | ready : TurnstileStatus
deriving DecidableEq, Repr

/-- Identifier of the single module-level `turnstileLoadPromise` object; the
module creates exactly one, so its identity is a fixed constant. -/
def turnstileLoadPromiseId : Nat := 0

/-- Construction of `turnstileLoadPromise` (lines 29-32): the executor runs at
module initialisation and resolves the promise immediately when
`turnstileState` is already `'ready'` at that moment. Returns whether the
promise is resolved at construction. -/
def turnstileLoadPromiseResolvedAtInit (st : TurnstileStatus) : Bool :=
  st = TurnstileStatus.ready

/-- Awaiting a promise with the given resolved flag: an already-resolved
promise yields its result immediately (`some ()`), an unresolved one has not
yet yielded (`none`). -/
def awaitLoadPromise (resolved : Bool) : Option Unit :=
  if resolved then some () else none

/-- The process-wide loader state: the `turnstileState` variable, whether
`turnstileLoadPromise` has been resolved, and the global onload callback slot
(`window[onLoadCallbackName]`), holding the name it was installed under. -/
structure LoaderState where
  status : TurnstileStatus
  promiseResolved : Bool
  callbackSlot : Option String
deriving DecidableEq, Repr

/-- Module initialisation: `turnstileState = 'unloaded'` (line 22), the load
promise constructed while the status is `unloaded` (lines 29-32), no global
callback installed. -/
def initLoaderState : LoaderState :=
  { status := TurnstileStatus.unloaded
    promiseResolved := turnstileLoadPromiseResolvedAtInit TurnstileStatus.unloaded
    callbackSlot := none }

/-- `ensureTurnstile(onLoadCallbackName)` (lines 34-44): when the status is
`unloaded` it moves to `loading` and installs the global callback under the
given name; otherwise it changes nothing. It always returns the one shared
`turnstileLoadPromise`. -/
def ensureTurnstile (name : String) (s : LoaderState) : LoaderState × Nat :=
  (if s.status = TurnstileStatus.unloaded then
    { status := TurnstileStatus.loading
      promiseResolved := s.promiseResolved
      callbackSlot := some name }
  else s, turnstileLoadPromiseId)

/-- The external script invoking the installed global callback (lines 37-41):
resolves the load promise, sets the status to `ready` and deletes the callback
slot. When no callback is installed there is nothing to invoke. -/
def fireOnload (s : LoaderState) : LoaderState :=
  match s.callbackSlot with
  | some _ =>
    { status := TurnstileStatus.ready, promiseResolved := true, callbackSlot := none }
  | none => s

/-- Events that touch the loader state: a call to `ensureTurnstile` with a
callback name, or the external script firing the installed callback. -/
inductive LoaderEvent where
  | ensure (name : String) : LoaderEvent
  | fire : LoaderEvent

/-- One loader-state step for one event. -/
def loaderStep (s : LoaderState) : LoaderEvent → LoaderState
  | LoaderEvent.ensure n => (ensureTurnstile n s).1
  | LoaderEvent.fire => fireOnload s

/-- The loader state reached from module initialisation by a sequence of events. -/
def runEvents (tr : List LoaderEvent) : LoaderState :=
  tr.foldl loaderStep initLoaderState

/-- The transitions the spec allows for `turnstileState`: stay put, or
`unloaded → loading`, or `loading → ready`. -/
def allowedStatusStep (a b : TurnstileStatus) : Prop :=
  a = b ∨ (a = TurnstileStatus.unloaded ∧ b = TurnstileStatus.loading) ∨
    (a = TurnstileStatus.loading ∧ b = TurnstileStatus.ready)

/-- Loader-state invariant: a global callback is installed only while the
status is `loading`, and the load promise is resolved only once the status is
`ready`. -/
def LoaderInv (s : LoaderState) : Prop :=
  (s.callbackSlot.isSome → s.status = TurnstileStatus.loading) ∧
    (s.promiseResolved = true → s.status = TurnstileStatus.ready)

/-! ## Per-instance component state and configuration -/

/-- Widget size option (`options.size`, default `'normal'`). -/
inductive Size where
  | normal : Size
  | compact : Size
  | flexible : Size
  | invisible : Size
deriving DecidableEq, Repr

/-- Container style: the visible style for a given size, the hidden
(invisible) style, or the interaction-only style. -/
inductive CStyle where
  | visible (sz : Size) : CStyle
  | invisible : CStyle
  | interactionOnly : CStyle
deriving DecidableEq, Repr

/-- Modelled from the spec: the style lookup table `CONTAINER_STYLE_SET` lives
in `./utils`, which is not among the provided sources. Per the spec's
container-visibility property, the table maps each widget size to that size's
visible style and the invisible size to the hidden style; the hidden
(`invisible`) and `interactionOnly` entries are the corresponding dedicated
styles. `containerStyleSet sz` is `CONTAINER_STYLE_SET[sz]`. -/
def containerStyleSet : Size → CStyle
  | Size.invisible => CStyle.invisible
  | sz => CStyle.visible sz

/-- Execution mode (`options.execution`, default `'render'`). -/
inductive Execution where
  | render : Execution
  | execute : Execution
deriving DecidableEq, Repr

/-- The slice of `renderConfig` (lines 86-128) that the imperative handle's
control flow inspects: the site key, the execution mode and the widget size;
the remaining fields are payload passed through to the external library
unexamined. -/
structure RenderConfigM where
  sitekey : String
  execution : Execution
  widgetSize : Size
deriving DecidableEq, Repr

/-- The external widget library (`window.turnstile`) as the component sees it:
which methods exist, whether the object is present at call time
(`checkIfTurnstileLoaded`), and the outcome of each external call. -/
structure Ext where
  present : Bool
  hasReset : Bool
  hasRemove : Bool
  hasRender : Bool
  hasExecute : Bool
  resetOutcome : ExtCall Unit
  removeOutcome : ExtCall Unit
  renderId : Option String
deriving DecidableEq, Repr

/-- The id value `turnstile.render` returns: a string, or `undefined` when the
external call yields no id. -/
def renderIdVal (ext : Ext) : JSVal :=
  match ext.renderId with
  | none => JSVal.undef
  | some s => JSVal.str s

/-- Per-instance mutable state of one mounted component: the `widgetId` ref,
the `widgetSolved` ref, the container style state, and whether
`containerRef.current` is non-null. -/
structure CState where
  widgetId : JSVal
  widgetSolved : Bool
  containerStyle : CStyle
  containerPresent : Bool
deriving DecidableEq, Repr

/-! ## Imperative handle operations (src/lib.tsx lines 180-311) -/

/-- Precondition guard of `reset()` (line 232):
`turnstile?.reset && widgetId.current && checkIfTurnstileLoaded()`. -/
def resetGuard (ext : Ext) (s : CState) : Bool :=
  ext.hasReset && s.widgetId.truthy && ext.present

/-- Precondition guard of `remove()` (line 250). -/
def removeGuard (ext : Ext) (s : CState) : Bool :=
  ext.hasRemove && s.widgetId.truthy && ext.present

/-- Precondition guard of `render()` (lines 262-267): the external render
method, the container node and the library must be present and no truthy
widget id may be held. -/
def renderGuard (ext : Ext) (s : CState) : Bool :=
  ext.hasRender && s.containerPresent && ext.present && !s.widgetId.truthy

/-- Precondition guard of the second check in `execute()` (lines 289-294). -/
def executeGuard (ext : Ext) (s : CState) : Bool :=
  ext.hasExecute && s.containerPresent && s.widgetId.truthy && ext.present

/-- Result of a `reset()` call: the new component state, a propagated
exception if any, the warnings logged, and how many external reset calls were
made. -/
structure ResetResult where
  state : CState
  thrown : Option String
  warnings : List String
  extResetCalls : Nat
deriving DecidableEq, Repr

/-- Result of a `remove()` call; `extRemoveCalls` lists the ids passed to the
external remove. -/
structure RemoveResult where
  state : CState
  thrown : Option String
  warnings : List String
  extRemoveCalls : List JSVal
deriving DecidableEq, Repr

/-- Result of a `render()` call; `hookCalls` lists the ids the `onWidgetLoad`
hook was invoked with, `returned` is the call's return value. -/
structure RenderResult where
  state : CState
  warnings : List String
  extRenderCalls : Nat
  hookCalls : List JSVal
  returned : JSVal
deriving DecidableEq, Repr

/-- Result of an `execute()` call; `extExecuteCalls` lists the configurations
passed to the external execute. -/
structure ExecuteResult where
  state : CState
  warnings : List String
  extExecuteCalls : List RenderConfigM
deriving DecidableEq, Repr

/-- `reset()` (lines 231-247): on a failed guard it warns and returns. On
success it first restores the invisible style in `execute` mode, then inside
the try block clears `widgetSolved` and calls the external reset; an exception
from the external call is caught and logged, never rethrown. -/
def resetOp (ext : Ext) (cfg : RenderConfigM) (s : CState) : ResetResult :=
  if resetGuard ext s then
    let s1 := if cfg.execution = Execution.execute then
        { s with containerStyle := CStyle.invisible }
      else s
    let s2 := { s1 with widgetSolved := false }
    match ext.resetOutcome with
    | ExtCall.ok _ =>
      { state := s2, thrown := none, warnings := [], extResetCalls := 1 }
    | ExtCall.throws _ =>
      { state := s2, thrown := none
        warnings := ["Failed to reset Turnstile widget"], extResetCalls := 1 }
  else
    { state := s, thrown := none
      warnings := ["Turnstile has not been loaded"], extResetCalls := 0 }

/-- `remove()` (lines 249-259): on a failed guard it warns and returns. On
success it hides the container, clears `widgetSolved`, calls the external
remove — unguarded by any try/catch, so a thrown exception propagates and the
subsequent `widgetId.current = null` is skipped — and otherwise clears the
stored id. -/
def removeOp (ext : Ext) (s : CState) : RemoveResult :=
  if removeGuard ext s then
    let s1 := { s with containerStyle := CStyle.invisible, widgetSolved := false }
    match ext.removeOutcome with
    | ExtCall.ok _ =>
      { state := { s1 with widgetId := JSVal.null }, thrown := none
        warnings := [], extRemoveCalls := [s.widgetId] }
    | ExtCall.throws m =>
      { state := s1, thrown := some m, warnings := [], extRemoveCalls := [s.widgetId] }
  else
    { state := s, thrown := none
      warnings := ["Turnstile has not been loaded"], extRemoveCalls := [] }

/-- `render()` (lines 261-281): on a failed guard it warns and does nothing.
Otherwise it calls the external render once, stores the returned id in the
`widgetId` ref, invokes `onWidgetLoad` only when the stored id is truthy,
switches the container to the size's style unless in `execute` mode, and
returns the id. -/
def renderOp (ext : Ext) (cfg : RenderConfigM) (s : CState) : RenderResult :=
  if renderGuard ext s then
    let idv := renderIdVal ext
    { state :=
        { s with
          widgetId := idv
          containerStyle :=
            if cfg.execution ≠ Execution.execute then containerStyleSet cfg.widgetSize
            else s.containerStyle }
      warnings := []
      extRenderCalls := 1
      hookCalls := if idv.truthy then [idv] else []
      returned := idv }
  else
    { state := s
      warnings := ["Turnstile has not been loaded or container not found"]
      extRenderCalls := 0
      hookCalls := []
      returned := JSVal.undef }

/-- `execute()` (lines 283-301): warns and does nothing unless the execution
mode is `execute`; then warns and does nothing unless the library, container
and a truthy widget id are present; otherwise calls the external execute with
the current render configuration and switches the container to the size's
style. -/
def executeOp (ext : Ext) (cfg : RenderConfigM) (s : CState) : ExecuteResult :=
  if cfg.execution ≠ Execution.execute then
    { state := s, warnings := ["Execution mode is not set to execute"], extExecuteCalls := [] }
  else if executeGuard ext s then
    { state := { s with containerStyle := containerStyleSet cfg.widgetSize }
      warnings := [], extExecuteCalls := [cfg] }
  else
    { state := s, warnings := ["Turnstile has not been loaded or container not found"]
      extExecuteCalls := [] }

/-! ## The automatic render effect (src/lib.tsx lines 157-178) -/

/-- The async body of the `renderWidget` effect (lines 163-168): when the
cancellation flag is set or the container is gone it does nothing; otherwise
it stores the external render's id in the `widgetId` ref and invokes
`onWidgetLoad` when that id is truthy. Returns the new state and the hook
invocations. -/
def effectRenderBody (cancelled : Bool) (ext : Ext) (s : CState) : CState × List JSVal :=
  if cancelled || !s.containerPresent then (s, [])
  else
    let idv := renderIdVal ext
    ({ s with widgetId := idv }, if idv.truthy then [idv] else [])

/-- The effect's cleanup (lines 172-175): sets the cancellation flag (modelled
by running `effectRenderBody` with `cancelled = true` afterwards) and, when a
truthy widget id is held, calls the external remove with it — without
clearing the `widgetId` ref. Returns the (unchanged) state and the external
remove calls. -/
def effectCleanup (s : CState) : CState × List JSVal :=
  (s, if s.widgetId.truthy then [s.widgetId] else [])

/-! ## getResponsePromise (src/lib.tsx lines 194-229)

The routine is event-driven: `checkLoaded` runs at times 0, retry, 2*retry, …
(each iteration ends with a retry-millisecond sleep), and the single timeout
timer — registered during the first iteration that does not settle — fires at
time `timeout`. A timer due at the same instant as a poll fires first, having
been registered earlier. The model walks the iterations and reports the first
settlement of the promise. -/

/-- The environment `checkLoaded` reads at its k-th invocation:
`widgetSolved.current`, `window.turnstile` presence, truthiness of
`widgetId.current`, and the outcome of `window.turnstile.getResponse`. -/
structure PollEnv where
  solved : Nat → Bool
  turnstilePresent : Nat → Bool
  widgetIdTruthy : Nat → Bool
  getResponse : Nat → ExtCall String

/-- How the promise returned by `getResponsePromise` settles: fulfilled with a
token, or rejected with an error message. -/
inductive PollResult where
  | fulfilled (token : String) : PollResult
  | rejected (msg : String) : PollResult
deriving DecidableEq, Repr

/-- Observable outcome of one `getResponsePromise` call: how and when (in
milliseconds after the call) the promise settles, how many `checkLoaded`
invocations ran by then, how many timeout timers were created, and how many
`clearTimeout` calls were made on the timeout timer at settlement. -/
structure PollOutcome where
  result : PollResult
  settleTime : Nat
  polls : Nat
  timersCreated : Nat
  timerClears : Nat
deriving DecidableEq, Repr

/-- The solved-branch condition of `checkLoaded` (line 199):
`widgetSolved.current && window.turnstile && widgetId.current`. -/
def pollTrigger (env : PollEnv) (k : Nat) : Bool :=
  env.solved k && env.turnstilePresent k && env.widgetIdTruthy k

/-- Settlement produced by the solved branch (lines 200-213): a thrown
`getResponse` rejects with `"Failed to get response"`, an empty token rejects
with `"No response received"`, a non-empty token fulfils the promise. -/
def pollBranch (env : PollEnv) (k : Nat) : PollResult :=
  match env.getResponse k with
  | ExtCall.throws _ => PollResult.rejected "Failed to get response"
  | ExtCall.ok t =>
    if t = "" then PollResult.rejected "No response received"
    else PollResult.fulfilled t

/-- The polling loop from iteration `k`, with `timerSet` the truthiness of
`timeoutId`, `created` the number of timers created so far, and structural
fuel. Iteration `k` runs at time `k * retry`. When the solved branch fires it
settles (clearing the timer if one is set, per line 202/210). Otherwise a
timer is created if none exists yet (lines 216-221); if that timer (due at
time `timeout`, registered during iteration 0) comes due no later than the
next poll at `(k+1) * retry`, the promise rejects with `"Timeout"` and the
handler clears the timer; else the loop sleeps `retry` and recurses. -/
def runPollAux (env : PollEnv) (timeout retry : Nat) :
    Nat → Bool → Nat → Nat → Option PollOutcome
  | _, _, _, 0 => none
  | k, timerSet, created, fuel + 1 =>
    if pollTrigger env k then
      some { result := pollBranch env k
             settleTime := k * retry
             polls := k + 1
             timersCreated := created
             timerClears := if timerSet then 1 else 0 }
    else
      let created1 := if timerSet then created else created + 1
      if timeout ≤ (k + 1) * retry then
        some { result := PollResult.rejected "Timeout"
               settleTime := timeout
               polls := k + 1
               timersCreated := created1
               timerClears := 1 }
      else
        runPollAux env timeout retry (k + 1) true created1 fuel

/-- One call to `getResponsePromise(timeout, retry)`: the loop starts at
iteration 0 with no timer; `timeout + 1` units of fuel suffice for any
positive retry interval. -/
def getResponsePromiseModel (env : PollEnv) (timeout retry : Nat) : Option PollOutcome :=
  runPollAux env timeout retry 0 false 0 (timeout + 1)

/-! ## Concrete inputs used by witnesses and counterexamples -/

/-- A fully present external library whose calls all succeed. -/
def extOk : Ext :=
  { present := true, hasReset := true, hasRemove := true, hasRender := true
    hasExecute := true, resetOutcome := ExtCall.ok (), removeOutcome := ExtCall.ok ()
    renderId := some "w1" }

/-- An external library whose `remove` throws. -/
def extRemoveThrows : Ext :=
  { extOk with removeOutcome := ExtCall.throws "remove failed" }

/-- An external library whose `reset` throws. -/
def extResetThrows : Ext :=
  { extOk with resetOutcome := ExtCall.throws "reset failed" }

/-- An external library whose `render` returns the empty string as id. -/
def extEmptyId : Ext :=
  { extOk with renderId := some "" }

/-- A mounted instance holding a live widget id. -/
def sActive : CState :=
  { widgetId := JSVal.str "w1", widgetSolved := true
    containerStyle := CStyle.visible Size.normal, containerPresent := true }

/-- A mounted instance before any render: no widget id held. -/
def sFresh : CState :=
  { widgetId := JSVal.null, widgetSolved := false
    containerStyle := CStyle.visible Size.normal, containerPresent := true }

/-- A render-mode configuration. -/
def cfgRender : RenderConfigM :=
  { sitekey := "site", execution := Execution.render, widgetSize := Size.normal }

/-- An execute-mode configuration. -/
def cfgExecute : RenderConfigM :=
  { sitekey := "site", execution := Execution.execute, widgetSize := Size.compact }

/-- A polling environment solved from the start with token `"XYZ"`. -/
def envSolved : PollEnv :=
  { solved := fun _ => true, turnstilePresent := fun _ => true
    widgetIdTruthy := fun _ => true, getResponse := fun _ => ExtCall.ok "XYZ" }

/-- A polling environment in which the widget never reports solved. -/
def envNever : PollEnv :=
  { solved := fun _ => false, turnstilePresent := fun _ => true
    widgetIdTruthy := fun _ => true, getResponse := fun _ => ExtCall.ok "XYZ" }

/-- A polling environment that first reports solved at the fourth check (poll
index 3), with token `"XYZ"`. -/
def envLate : PollEnv :=
  { solved := fun k => decide (3 ≤ k), turnstilePresent := fun _ => true
    widgetIdTruthy := fun _ => true, getResponse := fun _ => ExtCall.ok "XYZ" }

/-! ## Loader-state lemmas and claim C1 / C8 -/

theorem loaderInv_init : LoaderInv initLoaderState := by
  constructor <;> intro h <;> simp [initLoaderState, turnstileLoadPromiseResolvedAtInit] at h

theorem loaderInv_step (s : LoaderState) (e : LoaderEvent) (h : LoaderInv s) :
    LoaderInv (loaderStep s e) := by
  obtain ⟨h1, h2⟩ := h
  cases e with
  | ensure n =>
    by_cases hu : s.status = TurnstileStatus.unloaded
    · refine ⟨fun _ => ?_, fun hr => ?_⟩
      · simp [loaderStep, ensureTurnstile, hu]
      · have hp : s.promiseResolved = true := by
          simpa [loaderStep, ensureTurnstile, hu] using hr
        exact absurd (h2 hp) (by simp [hu])
    · have hid : loaderStep s (LoaderEvent.ensure n) = s := by
        simp [loaderStep, ensureTurnstile, hu]
      rw [hid]
      exact ⟨h1, h2⟩
  | fire =>
    cases hcb : s.callbackSlot with
    | none =>
      have hid : loaderStep s LoaderEvent.fire = s := by
        simp [loaderStep, fireOnload, hcb]
      rw [hid]
      exact ⟨h1, h2⟩
    | some n =>
      refine ⟨fun hc => ?_, fun _ => ?_⟩
      · exact absurd hc (by simp [loaderStep, fireOnload, hcb])
      · simp [loaderStep, fireOnload, hcb]

theorem loaderInv_runEvents (tr : List LoaderEvent) : LoaderInv (runEvents tr) := by
  suffices h : ∀ s, LoaderInv s → LoaderInv (tr.foldl loaderStep s) from h _ loaderInv_init
  induction tr with
  | nil => intro s hs; simpa using hs
  | cons e tl ih =>
    intro s hs
    exact ih _ (loaderInv_step s e hs)

theorem loaderStep_allowed (s : LoaderState) (e : LoaderEvent) (h : LoaderInv s) :
    allowedStatusStep s.status (loaderStep s e).status := by
  cases e with
  | ensure n =>
    by_cases hu : s.status = TurnstileStatus.unloaded
    · simp [loaderStep, ensureTurnstile, hu, allowedStatusStep]
    · simp [loaderStep, ensureTurnstile, hu, allowedStatusStep]
  | fire =>
    cases hcb : s.callbackSlot with
    | none => simp [loaderStep, fireOnload, hcb, allowedStatusStep]
    | some n =>
      have := h.1 (by simp [hcb])
      simp [loaderStep, fireOnload, hcb, allowedStatusStep, this]

/-- C1: along any event sequence from module initialisation, `turnstileState`
only ever stays put, moves `unloaded → loading` or moves `loading → ready`
(monotone, no regression, no skipping `loading`); `ensureTurnstile` from the
`unloaded` state moves to `loading` and installs the global callback under the
given name, from any other state it changes nothing; every call returns the
one shared `turnstileLoadPromise`; and whenever the global callback is
installed the status is `loading`, and firing the callback moves the status to
`ready` and resolves the shared promise. -/
theorem C1_loader_state_machine (tr : List LoaderEvent) (e : LoaderEvent) (n : String) :
    allowedStatusStep (runEvents tr).status (loaderStep (runEvents tr) e).status ∧
    ((runEvents tr).status = TurnstileStatus.unloaded →
      (ensureTurnstile n (runEvents tr)).1.status = TurnstileStatus.loading ∧
      (ensureTurnstile n (runEvents tr)).1.callbackSlot = some n) ∧
    ((runEvents tr).status ≠ TurnstileStatus.unloaded →
      (ensureTurnstile n (runEvents tr)).1 = runEvents tr) ∧
    (ensureTurnstile n (runEvents tr)).2 = turnstileLoadPromiseId ∧
    ((runEvents tr).callbackSlot.isSome →
      (runEvents tr).status = TurnstileStatus.loading ∧
      (fireOnload (runEvents tr)).status = TurnstileStatus.ready ∧
      (fireOnload (runEvents tr)).promiseResolved = true) := by
  have hinv := loaderInv_runEvents tr
  refine ⟨loaderStep_allowed _ e hinv, ?_, ?_, rfl, ?_⟩
  · intro hu
    simp [ensureTurnstile, hu]
  · intro hu
    simp [ensureTurnstile, hu]
  · intro hcb
    refine ⟨hinv.1 hcb, ?_, ?_⟩ <;>
      rcases hs : (runEvents tr).callbackSlot with _ | m <;>
      simp [hs] at hcb <;> simp [fireOnload, hs]

/-- Witness for C1 at concrete inputs: the first `ensureTurnstile` call (state
`unloaded`) moves to `loading`; a second call on the resulting state is a
no-op; firing the installed callback reaches `ready` with the promise
resolved; and the returned awaitable is the shared promise. -/
theorem C1_loader_state_machine_witness :
    (ensureTurnstile "cb" (runEvents [])).1.status = TurnstileStatus.loading ∧
    (ensureTurnstile "cb" (runEvents [LoaderEvent.ensure "cb"])).1 =
      runEvents [LoaderEvent.ensure "cb"] ∧
    (fireOnload (runEvents [LoaderEvent.ensure "cb"])).status = TurnstileStatus.ready ∧
    (ensureTurnstile "cb" (runEvents [])).2 = turnstileLoadPromiseId := by
  refine ⟨((C1_loader_state_machine [] LoaderEvent.fire "cb").2.1 (by decide)).1,
    (C1_loader_state_machine [LoaderEvent.ensure "cb"] LoaderEvent.fire "cb").2.2.1
      (by decide),
    ((C1_loader_state_machine [LoaderEvent.ensure "cb"] LoaderEvent.fire "cb").2.2.2.2
      (by decide)).2.1,
    (C1_loader_state_machine [] LoaderEvent.fire "cb").2.2.2.1⟩

/-- C8: when `turnstileState` is already `ready` at the moment the shared
`turnstileLoadPromise` is constructed, the promise is resolved immediately, so
awaiting it yields at once rather than hanging. -/
theorem C8_promise_resolved_at_construction (st : TurnstileStatus)
    (h : st = TurnstileStatus.ready) :
    turnstileLoadPromiseResolvedAtInit st = true ∧
    awaitLoadPromise (turnstileLoadPromiseResolvedAtInit st) = some () := by
  subst h
  exact ⟨rfl, rfl⟩

/-- Witness for C8: at the concrete status `ready`. -/
theorem C8_promise_resolved_at_construction_witness :
    turnstileLoadPromiseResolvedAtInit TurnstileStatus.ready = true ∧
    awaitLoadPromise (turnstileLoadPromiseResolvedAtInit TurnstileStatus.ready) = some () :=
  C8_promise_resolved_at_construction TurnstileStatus.ready rfl

/-! ## Imperative handle: claims C4, C5, C6, C7, C9, C10 -/

/-- Counterexample for C4: with a held widget id and a present library, an
exception thrown by the external `remove` call propagates out of `remove()` —
the claim asserts it is caught and never propagated. (`remove()` has no
try/catch around `turnstile.remove`, unlike `reset()`.) -/
theorem C4_remove_propagates_counterexample :
    (removeOp extRemoveThrows sActive).thrown = some "remove failed" := by
  rfl

/-- C4 amended: any error thrown by the external reset call is caught and
logged and never propagated out of `reset()`; but for `remove()` with its
preconditions holding, an error thrown by the external remove call propagates
to the caller, and the stored widget id is then not cleared (a non-throwing
external remove propagates nothing). -/
theorem C4_reset_swallows_remove_propagates (ext : Ext) (cfg : RenderConfigM) (s : CState) :
    (resetOp ext cfg s).thrown = none ∧
    (resetGuard ext s = true → ∀ m, ext.resetOutcome = ExtCall.throws m →
      (resetOp ext cfg s).warnings = ["Failed to reset Turnstile widget"]) ∧
    (removeGuard ext s = true → ext.removeOutcome = ExtCall.ok () →
      (removeOp ext s).thrown = none) ∧
    (removeGuard ext s = true → ∀ m, ext.removeOutcome = ExtCall.throws m →
      (removeOp ext s).thrown = some m ∧ (removeOp ext s).state.widgetId = s.widgetId) := by
  refine ⟨?_, ?_, ?_, ?_⟩
  · by_cases hg : resetGuard ext s
    · cases hro : ext.resetOutcome <;> simp [resetOp, hg, hro]
    · simp [resetOp, hg]
  · intro hg m hm
    simp [resetOp, hg, hm]
  · intro hg hm
    simp [removeOp, hg, hm]
  · intro hg m hm
    simp [removeOp, hg, hm]

/-- Witness for C4's amended statement: a throwing external reset is swallowed
with a logged warning, a successful external remove propagates nothing, and a
throwing external remove propagates its error with the id left in place. -/
theorem C4_reset_swallows_remove_propagates_witness :
    (resetOp extResetThrows cfgRender sActive).thrown = none ∧
    (resetOp extResetThrows cfgRender sActive).warnings =
      ["Failed to reset Turnstile widget"] ∧
    (removeOp extOk sActive).thrown = none ∧
    (removeOp extRemoveThrows sActive).thrown = some "remove failed" := by
  refine ⟨(C4_reset_swallows_remove_propagates extResetThrows cfgRender sActive).1,
    (C4_reset_swallows_remove_propagates extResetThrows cfgRender sActive).2.1
      (by decide) "reset failed" rfl,
    (C4_reset_swallows_remove_propagates extOk cfgRender sActive).2.2.1 (by decide) rfl,
    ((C4_reset_swallows_remove_propagates extRemoveThrows cfgRender sActive).2.2.2
      (by decide) "remove failed" rfl).1⟩

/-- Counterexample for C5: with the library and container present and no id
held, an external render that returns the empty string as id leads to one
external render call and the empty id being stored, but the widget-load hook
is NOT invoked with that id (the code guards the hook on the truthiness of
`widgetId.current`) — the claim asserts the hook is invoked with the returned
id whenever the preconditions hold. -/
theorem C5_render_hook_counterexample :
    (renderOp extEmptyId cfgRender sFresh).extRenderCalls = 1 ∧
    (renderOp extEmptyId cfgRender sFresh).state.widgetId = JSVal.str "" ∧
    (renderOp extEmptyId cfgRender sFresh).hookCalls = [] ∧
    (renderOp extEmptyId cfgRender sFresh).hookCalls ≠ [JSVal.str ""] := by
  refine ⟨rfl, rfl, rfl, by decide⟩

/-- C5 amended: when the external render method, the container node and the
library are present and no truthy widget id is held, `render()` calls the
external render exactly once, stores the returned id, and invokes the
widget-load hook with that id exactly when the id is truthy (non-empty
string); when any precondition fails — in particular whenever a truthy id is
already held — it logs a warning, performs no external render call, invokes no
hook and changes no state. -/
theorem C5_render_once_and_noop (ext : Ext) (cfg : RenderConfigM) (s : CState) :
    (renderGuard ext s = true →
      (renderOp ext cfg s).extRenderCalls = 1 ∧
      (renderOp ext cfg s).state.widgetId = renderIdVal ext ∧
      (renderOp ext cfg s).returned = renderIdVal ext ∧
      ((renderIdVal ext).truthy = true →
        (renderOp ext cfg s).hookCalls = [renderIdVal ext]) ∧
      ((renderIdVal ext).truthy = false → (renderOp ext cfg s).hookCalls = [])) ∧
    (renderGuard ext s = false →
      (renderOp ext cfg s).extRenderCalls = 0 ∧
      (renderOp ext cfg s).state = s ∧
      (renderOp ext cfg s).hookCalls = [] ∧
      (renderOp ext cfg s).warnings =
        ["Turnstile has not been loaded or container not found"]) := by
  constructor
  · intro hg
    refine ⟨by simp [renderOp, hg], by simp [renderOp, hg], by simp [renderOp, hg],
      fun ht => by simp [renderOp, hg, ht], fun ht => by simp [renderOp, hg, ht]⟩
  · intro hg
    simp [renderOp, hg]

/-- Witness for C5's amended statement: a fresh instance renders once, stores
the truthy id `"w1"` and invokes the hook with it; an instance already holding
the truthy id `"w1"` performs no external render call and keeps its state. -/
theorem C5_render_once_and_noop_witness :
    (renderOp extOk cfgRender sFresh).extRenderCalls = 1 ∧
    (renderOp extOk cfgRender sFresh).hookCalls = [JSVal.str "w1"] ∧
    (renderOp extOk cfgRender sActive).extRenderCalls = 0 ∧
    (renderOp extOk cfgRender sActive).state = sActive := by
  refine ⟨((C5_render_once_and_noop extOk cfgRender sFresh).1 (by decide)).1,
    ((C5_render_once_and_noop extOk cfgRender sFresh).1 (by decide)).2.2.2.1 (by decide),
    ((C5_render_once_and_noop extOk cfgRender sActive).2 (by decide)).1,
    ((C5_render_once_and_noop extOk cfgRender sActive).2 (by decide)).2.1⟩

/-- C6: once the effect's cleanup has run (the cancellation flag is set), the
pending render body stores no widget id, invokes no widget-load hook, and
changes no state — and the cleanup itself leaves the component state (in
particular the widgetId ref) unchanged, so no stale id is stored after
teardown. -/
theorem C6_cancelled_render_is_noop (ext : Ext) (s : CState) :
    effectRenderBody true ext ((effectCleanup s).1) = ((effectCleanup s).1, []) ∧
    (effectCleanup s).1 = s := by
  exact ⟨by simp [effectRenderBody, effectCleanup], rfl⟩

/-- C7: `execute()` takes effect only when the execution mode is `execute` and
the external execute method, the container node, a truthy widget id and the
library are all present: then it delegates to the external execute with the
current render configuration once and sets the container style to the style
for the configured size; in every other case it logs one warning and changes
nothing. -/
theorem C7_execute_delegates_or_noop (ext : Ext) (cfg : RenderConfigM) (s : CState) :
    (cfg.execution = Execution.execute → executeGuard ext s = true →
      (executeOp ext cfg s).extExecuteCalls = [cfg] ∧
      (executeOp ext cfg s).state.containerStyle = containerStyleSet cfg.widgetSize ∧
      (executeOp ext cfg s).state.widgetId = s.widgetId ∧
      (executeOp ext cfg s).state.widgetSolved = s.widgetSolved ∧
      (executeOp ext cfg s).warnings = []) ∧
    (cfg.execution ≠ Execution.execute →
      (executeOp ext cfg s).extExecuteCalls = [] ∧
      (executeOp ext cfg s).state = s ∧
      (executeOp ext cfg s).warnings.length = 1) ∧
    (executeGuard ext s = false →
      (executeOp ext cfg s).extExecuteCalls = [] ∧
      (executeOp ext cfg s).state = s ∧
      (executeOp ext cfg s).warnings.length = 1) := by
  refine ⟨?_, ?_, ?_⟩
  · intro he hg
    simp [executeOp, he, hg]
  · intro he
    simp [executeOp, he]
  · intro hg
    by_cases he : cfg.execution = Execution.execute
    · simp [executeOp, he, hg]
    · simp [executeOp, he]

/-- Witness for C7: in execute mode with everything present the external
execute receives the configuration and the container takes the size's style;
in render mode nothing happens but a warning. -/
theorem C7_execute_delegates_or_noop_witness :
    (executeOp extOk cfgExecute sActive).extExecuteCalls = [cfgExecute] ∧
    (executeOp extOk cfgExecute sActive).state.containerStyle =
      containerStyleSet Size.compact ∧
    (executeOp extOk cfgRender sActive).extExecuteCalls = [] ∧
    (executeOp extOk cfgRender sActive).state = sActive := by
  refine ⟨((C7_execute_delegates_or_noop extOk cfgExecute sActive).1 rfl (by decide)).1,
    ((C7_execute_delegates_or_noop extOk cfgExecute sActive).1 rfl (by decide)).2.1,
    ((C7_execute_delegates_or_noop extOk cfgRender sActive).2.1 (by decide)).1,
    ((C7_execute_delegates_or_noop extOk cfgRender sActive).2.1 (by decide)).2.1⟩

/-- C9: the automatic render effect's cleanup calls the external remove with
the held (truthy) widget id but leaves the stored widget id unchanged, while
only the imperative `remove()` ever writes `null` back into the widgetId ref:
`reset()` and `execute()` never touch it, `render()` writes only the external
render's return value (a string or `undefined`, never `null`), and
`remove()` with its preconditions holding and a non-throwing external remove
sets it to `null`. -/
theorem C9_only_remove_clears_widget_id (ext : Ext) (cfg : RenderConfigM) (s : CState) :
    (effectCleanup s).1.widgetId = s.widgetId ∧
    (s.widgetId.truthy = true → (effectCleanup s).2 = [s.widgetId]) ∧
    (removeGuard ext s = true → ext.removeOutcome = ExtCall.ok () →
      (removeOp ext s).state.widgetId = JSVal.null) ∧
    (resetOp ext cfg s).state.widgetId = s.widgetId ∧
    (executeOp ext cfg s).state.widgetId = s.widgetId ∧
    ((renderOp ext cfg s).state.widgetId = JSVal.null → s.widgetId = JSVal.null) := by
  refine ⟨rfl, fun ht => by simp [effectCleanup, ht], fun hg hm => by simp [removeOp, hg, hm],
    ?_, ?_, ?_⟩
  · by_cases hg : resetGuard ext s
    · cases hro : ext.resetOutcome <;>
        by_cases he : cfg.execution = Execution.execute <;>
        simp [resetOp, hg, hro, he]
    · simp [resetOp, hg]
  · by_cases he : cfg.execution = Execution.execute
    · by_cases hg : executeGuard ext s <;> simp [executeOp, he, hg]
    · simp [executeOp, he]
  · intro hr
    by_cases hg : renderGuard ext s
    · exfalso
      cases hid : ext.renderId with
      | none => simp [renderOp, hg, renderIdVal, hid] at hr
      | some t => simp [renderOp, hg, renderIdVal, hid] at hr
    · simpa [renderOp, hg] using hr

/-- Witness for C9: cleanup on an active instance calls the external remove
with id `"w1"` yet leaves the stored id `"w1"` in place; the imperative
`remove()` on the same instance clears it to `null`. -/
theorem C9_only_remove_clears_widget_id_witness :
    (effectCleanup sActive).1.widgetId = JSVal.str "w1" ∧
    (effectCleanup sActive).2 = [JSVal.str "w1"] ∧
    (removeOp extOk sActive).state.widgetId = JSVal.null := by
  refine ⟨(C9_only_remove_clears_widget_id extOk cfgRender sActive).1,
    (C9_only_remove_clears_widget_id extOk cfgRender sActive).2.1 (by decide),
    (C9_only_remove_clears_widget_id extOk cfgRender sActive).2.2.1 (by decide) rfl⟩

/-- C10: `reset()` mutates the instance before delegating to the external
library: whenever its preconditions hold, the solved flag is false after
`reset()` returns and, in execute mode, the container style is the invisible
style — for every external reset outcome, including a throwing one, so the
internal state change is not rolled back on external failure. -/
theorem C10_reset_mutates_before_delegating (ext : Ext) (cfg : RenderConfigM) (s : CState)
    (hg : resetGuard ext s = true) :
    (resetOp ext cfg s).state.widgetSolved = false ∧
    (cfg.execution = Execution.execute →
      (resetOp ext cfg s).state.containerStyle = CStyle.invisible) := by
  constructor
  · cases hro : ext.resetOutcome <;>
      by_cases he : cfg.execution = Execution.execute <;> simp [resetOp, hg, hro, he]
  · intro he
    cases hro : ext.resetOutcome <;> simp [resetOp, hg, hro, he]

/-- Witness for C10: a solved, execute-mode instance whose external reset
throws still ends with the solved flag cleared and the invisible style. -/
theorem C10_reset_mutates_before_delegating_witness :
    (resetOp extResetThrows cfgExecute sActive).state.widgetSolved = false ∧
    (resetOp extResetThrows cfgExecute sActive).state.containerStyle = CStyle.invisible := by
  refine ⟨(C10_reset_mutates_before_delegating extResetThrows cfgExecute sActive
      (by decide)).1,
    (C10_reset_mutates_before_delegating extResetThrows cfgExecute sActive
      (by decide)).2 rfl⟩

/-! ## Polling-loop lemmas and claims C2 / C3 -/

theorem runPollAux_settles (env : PollEnv) (timeout retry : Nat) (_hr : 0 < retry) :
    ∀ fuel k ts c, timeout ≤ (k + fuel) * retry → 1 ≤ fuel →
      (k = 0 ∨ k * retry < timeout) →
      ((ts = false ∧ c = 0) ∨ (ts = true ∧ c = 1)) →
      ∃ o, runPollAux env timeout retry k ts c fuel = some o ∧
        o.timersCreated ≤ 1 ∧ o.timerClears = o.timersCreated ∧
        o.settleTime ≤ timeout := by
  intro fuel
  induction fuel with
  | zero => intro k ts c _ h1 _ _; omega
  | succ f ih =>
    intro k ts c hle _ hk hts
    by_cases htr : pollTrigger env k
    · have hstep : runPollAux env timeout retry k ts c (f + 1) =
          some { result := pollBranch env k, settleTime := k * retry, polls := k + 1,
                 timersCreated := c, timerClears := if ts then 1 else 0 } := by
        simp [runPollAux, htr]
      refine ⟨_, hstep, ?_, ?_, ?_⟩
      · rcases hts with ⟨_, hc⟩ | ⟨_, hc⟩ <;> simp [hc]
      · rcases hts with ⟨hts1, hc⟩ | ⟨hts1, hc⟩ <;> simp [hts1, hc]
      · rcases hk with hk | hk
        · simp [hk]
        · exact le_of_lt hk
    · by_cases hto : timeout ≤ (k + 1) * retry
      · have hstep : runPollAux env timeout retry k ts c (f + 1) =
            some { result := PollResult.rejected "Timeout", settleTime := timeout,
                   polls := k + 1, timersCreated := if ts then c else c + 1,
                   timerClears := 1 } := by
          simp [runPollAux, htr, hto]
        refine ⟨_, hstep, ?_, ?_, le_refl _⟩
        · rcases hts with ⟨hts1, hc⟩ | ⟨hts1, hc⟩ <;> simp [hts1, hc]
        · rcases hts with ⟨hts1, hc⟩ | ⟨hts1, hc⟩ <;> simp [hts1, hc]
      · have hstep : runPollAux env timeout retry k ts c (f + 1) =
            runPollAux env timeout retry (k + 1) true (if ts then c else c + 1) f := by
          simp [runPollAux, htr, hto]
        have hf : 1 ≤ f := by
          rcases Nat.eq_zero_or_pos f with h0 | h1
          · subst h0
            have he : k + (0 + 1) = k + 1 := by omega
            rw [he] at hle
            exact absurd hle hto
          · exact h1
        have hle' : timeout ≤ ((k + 1) + f) * retry := by
          have he : (k + 1) + f = k + (f + 1) := by omega
          rw [he]
          exact hle
        have hc1 : (if ts then c else c + 1) = 1 := by
          rcases hts with ⟨hts1, hc⟩ | ⟨hts1, hc⟩ <;> simp [hts1, hc]
        obtain ⟨o, ho, h1, h2, h3⟩ := ih (k + 1) true (if ts then c else c + 1) hle' hf
          (Or.inr (Nat.lt_of_not_le hto)) (Or.inr ⟨rfl, hc1⟩)
        exact ⟨o, hstep.trans ho, h1, h2, h3⟩

theorem runPollAux_times_out (env : PollEnv) (timeout retry : Nat) (_hr : 0 < retry)
    (hpos : 0 < timeout)
    (hsol : ∀ j, j * retry < timeout → env.solved j = false) :
    ∀ fuel k ts c, timeout ≤ (k + fuel) * retry → 1 ≤ fuel →
      (k = 0 ∨ k * retry < timeout) →
      ∃ o, runPollAux env timeout retry k ts c fuel = some o ∧
        o.result = PollResult.rejected "Timeout" ∧ o.settleTime = timeout ∧
        (o.polls - 1) * retry < timeout ∧ timeout ≤ o.polls * retry := by
  intro fuel
  induction fuel with
  | zero => intro k ts c _ h1 _; omega
  | succ f ih =>
    intro k ts c hle _ hk
    have hklt : k * retry < timeout := by
      rcases hk with hk | hk
      · simpa [hk] using hpos
      · exact hk
    have htr : pollTrigger env k = false := by
      simp [pollTrigger, hsol k hklt]
    by_cases hto : timeout ≤ (k + 1) * retry
    · have hstep : runPollAux env timeout retry k ts c (f + 1) =
          some { result := PollResult.rejected "Timeout", settleTime := timeout,
                 polls := k + 1, timersCreated := if ts then c else c + 1,
                 timerClears := 1 } := by
        simp [runPollAux, htr, hto]
      exact ⟨_, hstep, rfl, rfl, by simpa using hklt, by simpa using hto⟩
    · have hstep : runPollAux env timeout retry k ts c (f + 1) =
          runPollAux env timeout retry (k + 1) true (if ts then c else c + 1) f := by
        simp [runPollAux, htr, hto]
      have hf : 1 ≤ f := by
        rcases Nat.eq_zero_or_pos f with h0 | h1
        · subst h0
          have he : k + (0 + 1) = k + 1 := by omega
          rw [he] at hle
          exact absurd hle hto
        · exact h1
      have hle' : timeout ≤ ((k + 1) + f) * retry := by
        have he : (k + 1) + f = k + (f + 1) := by omega
        rw [he]
        exact hle
      obtain ⟨o, ho, h1, h2, h3, h4⟩ := ih (k + 1) true (if ts then c else c + 1) hle' hf
        (Or.inr (Nat.lt_of_not_le hto))
      exact ⟨o, hstep.trans ho, h1, h2, h3, h4⟩

theorem fuel_sufficient (timeout retry : Nat) (hr : 0 < retry) :
    timeout ≤ (0 + (timeout + 1)) * retry := by
  rw [Nat.zero_add]
  calc timeout ≤ timeout + 1 := Nat.le_succ _
    _ = (timeout + 1) * 1 := (Nat.mul_one _).symm
    _ ≤ (timeout + 1) * retry := Nat.mul_le_mul_left _ hr

theorem runPollAux_first_solve (env : PollEnv) (timeout retry k : Nat)
    (htrig : pollTrigger env k = true)
    (hprev : ∀ i, i < k → pollTrigger env i = false)
    (hk : k = 0 ∨ k * retry < timeout) :
    ∀ fuel j ts c, j ≤ k → k + 1 ≤ j + fuel →
      ∃ o, runPollAux env timeout retry j ts c fuel = some o ∧
        o.result = pollBranch env k ∧ o.settleTime = k * retry ∧ o.polls = k + 1 := by
  intro fuel
  induction fuel with
  | zero => intro j ts c hj hf; omega
  | succ f ih =>
    intro j ts c hj hf
    by_cases hjk : j = k
    · subst hjk
      have hstep : runPollAux env timeout retry j ts c (f + 1) =
          some { result := pollBranch env j, settleTime := j * retry, polls := j + 1,
                 timersCreated := c, timerClears := if ts then 1 else 0 } := by
        simp [runPollAux, htrig]
      exact ⟨_, hstep, rfl, rfl, rfl⟩
    · have hjlt : j < k := lt_of_le_of_ne hj hjk
      have htr : pollTrigger env j = false := hprev j hjlt
      have hklt : k * retry < timeout := by
        rcases hk with hk0 | hklt
        · omega
        · exact hklt
      have hcont : ¬ timeout ≤ (j + 1) * retry := by
        have h1 : (j + 1) * retry ≤ k * retry := Nat.mul_le_mul_right retry hjlt
        omega
      have hstep : runPollAux env timeout retry j ts c (f + 1) =
          runPollAux env timeout retry (j + 1) true (if ts then c else c + 1) f := by
        simp [runPollAux, htr, hcont]
      obtain ⟨o, ho, h1, h2, h3⟩ := ih (j + 1) true (if ts then c else c + 1) hjlt
        (by omega)
      exact ⟨o, hstep.trans ho, h1, h2, h3⟩

/-- C2: for a call to `getResponsePromise(timeout, retry)` on a mounted
instance with an existing widget id: while the widget is not solved the
routine re-checks every `retry` milliseconds, and at the first check `k` at
which the solved flag is true (with the library and a truthy widget id
present) — whether that is the initial check or any later poll that happens
before the timeout elapses — the promise settles at time `k * retry` after
`k + 1` checks: fulfilled with the token when the external `getResponse`
returns a non-empty token, rejected with `"No response received"` when the
token is empty, rejected with `"Failed to get response"` when `getResponse`
throws; and when the solved flag stays false at every poll before the timeout
elapses, the promise rejects with `"Timeout"` at time `timeout`, the checks
having run every `retry` milliseconds: `polls` many, at times `0, retry, …`,
with `(polls - 1) * retry < timeout ≤ polls * retry`. -/
theorem C2_get_response_promise_outcomes (env : PollEnv) (timeout retry : Nat) :
    (∀ k, env.solved k = true → env.turnstilePresent k = true →
      env.widgetIdTruthy k = true → (∀ j, j < k → env.solved j = false) →
      (k = 0 ∨ (0 < retry ∧ k * retry < timeout)) →
      (∀ t, env.getResponse k = ExtCall.ok t → t ≠ "" →
        ∃ o, getResponsePromiseModel env timeout retry = some o ∧
          o.result = PollResult.fulfilled t ∧ o.settleTime = k * retry ∧
          o.polls = k + 1) ∧
      (env.getResponse k = ExtCall.ok "" →
        ∃ o, getResponsePromiseModel env timeout retry = some o ∧
          o.result = PollResult.rejected "No response received" ∧
          o.settleTime = k * retry ∧ o.polls = k + 1) ∧
      (∀ m, env.getResponse k = ExtCall.throws m →
        ∃ o, getResponsePromiseModel env timeout retry = some o ∧
          o.result = PollResult.rejected "Failed to get response" ∧
          o.settleTime = k * retry ∧ o.polls = k + 1)) ∧
    (0 < retry → 0 < timeout → (∀ k, k * retry < timeout → env.solved k = false) →
      ∃ o, getResponsePromiseModel env timeout retry = some o ∧
        o.result = PollResult.rejected "Timeout" ∧ o.settleTime = timeout ∧
        (o.polls - 1) * retry < timeout ∧ timeout ≤ o.polls * retry) := by
  constructor
  · intro k hsk htp hwt hprev hk
    have htrig : pollTrigger env k = true := by simp [pollTrigger, hsk, htp, hwt]
    have hprev' : ∀ i, i < k → pollTrigger env i = false := fun i hi => by
      simp [pollTrigger, hprev i hi]
    have hk' : k = 0 ∨ k * retry < timeout := hk.imp id And.right
    have hfuel : k + 1 ≤ 0 + (timeout + 1) := by
      rcases hk with hk0 | ⟨hr, hklt⟩
      · omega
      · have hkk : k ≤ k * retry := Nat.le_mul_of_pos_right k hr
        omega
    obtain ⟨o, ho, hres, hst, hp⟩ := runPollAux_first_solve env timeout retry k htrig
      hprev' hk' (timeout + 1) 0 false 0 (Nat.zero_le k) hfuel
    have ho' : getResponsePromiseModel env timeout retry = some o := by
      simpa [getResponsePromiseModel] using ho
    refine ⟨?_, ?_, ?_⟩
    · intro t hresp hne
      exact ⟨o, ho', hres.trans (by simp [pollBranch, hresp, hne]), hst, hp⟩
    · intro hresp
      exact ⟨o, ho', hres.trans (by simp [pollBranch, hresp]), hst, hp⟩
    · intro m hresp
      exact ⟨o, ho', hres.trans (by simp [pollBranch, hresp]), hst, hp⟩
  · intro hr hpos hsol
    exact runPollAux_times_out env timeout retry hr hpos hsol (timeout + 1) 0 false 0
      (fuel_sufficient timeout retry hr) (Nat.succ_le_succ (Nat.zero_le _)) (Or.inl rfl)

/-- Witness for C2: a widget that first solves at poll 3 (time 300 ms given
`retry = 100`) fulfils with `"XYZ"` at settle time 300 after 4 checks; a
widget solved from the start fulfils immediately; a widget that never solves
rejects with `"Timeout"` at `timeout = 5` with polls every `retry = 2`
milliseconds. -/
theorem C2_get_response_promise_outcomes_witness :
    (∃ o, getResponsePromiseModel envLate 30000 100 = some o ∧
      o.result = PollResult.fulfilled "XYZ" ∧ o.settleTime = 300 ∧ o.polls = 4) ∧
    (∃ o, getResponsePromiseModel envSolved 30000 100 = some o ∧
      o.result = PollResult.fulfilled "XYZ" ∧ o.settleTime = 0 ∧ o.polls = 1) ∧
    (∃ o, getResponsePromiseModel envNever 5 2 = some o ∧
      o.result = PollResult.rejected "Timeout" ∧ o.settleTime = 5 ∧
      (o.polls - 1) * 2 < 5 ∧ 5 ≤ o.polls * 2) := by
  refine ⟨?_, ?_, ?_⟩
  · obtain ⟨o, ho, h1, h2, h3⟩ :=
      ((C2_get_response_promise_outcomes envLate 30000 100).1 3 rfl rfl rfl
        (fun j hj => by simp [envLate]; omega)
        (Or.inr ⟨by decide, by decide⟩)).1 "XYZ" rfl (by decide)
    exact ⟨o, ho, h1, by simpa using h2, h3⟩
  · obtain ⟨o, ho, h1, h2, h3⟩ :=
      ((C2_get_response_promise_outcomes envSolved 30000 100).1 0 rfl rfl rfl
        (fun j hj => absurd hj (Nat.not_lt_zero j)) (Or.inl rfl)).1 "XYZ" rfl (by decide)
    exact ⟨o, ho, h1, by simpa using h2, h3⟩
  · exact (C2_get_response_promise_outcomes envNever 5 2).2 (by decide) (by decide)
      (fun k _ => rfl)

/-- C3: within one `getResponsePromise(timeout, retry)` call (for a positive
retry interval), at most one timeout timer is ever created however many poll
iterations occur, every created timer has been cleared by the time the promise
settles (on fulfilment and on both rejection kinds alike), and the promise
always settles, no later than `timeout + retry` milliseconds after the call. -/
theorem C3_single_timer_and_settlement (env : PollEnv) (timeout retry : Nat)
    (hr : 0 < retry) :
    ∃ o, getResponsePromiseModel env timeout retry = some o ∧
      o.timersCreated ≤ 1 ∧ o.timerClears = o.timersCreated ∧
      o.settleTime ≤ timeout + retry := by
  obtain ⟨o, ho, h1, h2, h3⟩ := runPollAux_settles env timeout retry hr (timeout + 1) 0
    false 0 (fuel_sufficient timeout retry hr) (Nat.succ_le_succ (Nat.zero_le _))
    (Or.inl rfl) (Or.inl ⟨rfl, rfl⟩)
  exact ⟨o, ho, h1, h2, le_trans h3 (Nat.le_add_right _ _)⟩

/-- Witness for C3: a never-solving widget at `timeout = 7`, `retry = 3`. -/
theorem C3_single_timer_and_settlement_witness :
    ∃ o, getResponsePromiseModel envNever 7 3 = some o ∧
      o.timersCreated ≤ 1 ∧ o.timerClears = o.timersCreated ∧
      o.settleTime ≤ 7 + 3 :=
  C3_single_timer_and_settlement envNever 7 3 (by decide)

end HonoTurnstile
